import Mathlib

/- Shallow embedding of schema.py (version 0.4.2), a declarative structural
   validation engine.  Python values are modelled by `Value`, schema
   descriptions by `Sch`, and `Schema(s, error=e, allow_wrong_keys=w)
   .validate(data)` by `validate fuel s e w data`.  The `fuel` argument is a
   modelling artifact bounding recursion depth (the Python code recurses on
   the schema tree without an explicit bound); every theorem supplies enough
   fuel for the inputs it speaks about.  Python dicts are modelled as
   insertion-ordered association lists, as in CPython. -/

/-- Single quote character, used when rendering Python reprs. -/
def squo : String := String.singleton (Char.ofNat 39)

/-- Double quote character, used when rendering Python reprs. -/
def dquo : String := String.singleton (Char.ofNat 34)

/-- Python scalar (hashable, non-container) values appearing in the model. -/
inductive Atom where
  | aint : Int → Atom
  | astr : String → Atom
  | abool : Bool → Atom
  | anone : Atom

/-- Python values: scalars plus lists and insertion-ordered dicts. -/
inductive Value where
  | atom : Atom → Value
  | vlist : List Value → Value
  | vdict : List (Value × Value) → Value

/-- Shorthand for an int value. -/
def vint (n : Int) : Value := .atom (.aint n)

/-- Shorthand for a string value. -/
def vstr (s : String) : Value := .atom (.astr s)

/-- Numeric value of a Python bool (bool is a subclass of int). -/
def boolInt (b : Bool) : Int := if b then 1 else 0

/-- Python equality on scalars; mirrors 1 == True and 0 == False. -/
def atomEq : Atom → Atom → Bool
  | .aint n, .aint m => n == m
  | .aint n, .abool b => n == boolInt b
  | .abool b, .aint n => boolInt b == n
  | .abool b, .abool c => b == c
  | .astr s, .astr t => s == t
  | .anone, .anone => true
  | _, _ => false

/-- Python equality between a scalar and an arbitrary value (a scalar never
    equals a container). -/
def atomEqV : Atom → Value → Bool
  | a, .atom b => atomEq a b
  | _, _ => false

/-- Python equality on mapping keys.  Real Python mapping keys are hashable
    and hence never lists or dicts, so the model only compares scalars. -/
def pyVEq : Value → Value → Bool
  | .atom a, .atom b => atomEq a b
  | _, _ => false

/-- The type objects used by the engine and in the modelled schemas. -/
inductive PyType where
  | int | str | bool | dict | list

/-- The __name__ of a type object. -/
def tyName : PyType → String
  | .int => "int"
  | .str => "str"
  | .bool => "bool"
  | .dict => "dict"
  | .list => "list"

/-- Python isinstance on modelled values (bool is a subclass of int). -/
def isinstance : Value → PyType → Bool
  | .atom (.aint _), .int => true
  | .atom (.abool _), .int => true
  | .atom (.abool _), .bool => true
  | .atom (.astr _), .str => true
  | .vlist _, .list => true
  | .vdict _, .dict => true
  | _, _ => false

/-- The callables available in the model (the int builtin, used by the
    spec examples as a Use transform). -/
inductive PyFun where
  | intFn

/-- _callable_str of a callable: its __name__. -/
def funName : PyFun → String
  | .intFn => "int"

/-- Python repr of a callable object. -/
def funRepr : PyFun → String
  | .intFn => "<class " ++ squo ++ "int" ++ squo ++ ">"

/-- Read a nonempty all-digit character list as a natural number. -/
def digitsVal : List Char → Option Nat
  | [] => none
  | cs => cs.foldl (fun acc c =>
      match acc with
      | none => none
      | some n => if c.isDigit then some (n * 10 + (c.toNat - 48)) else none)
      (some 0)

/-- Python int(string): optional sign followed by decimal digits. -/
def parseIntPy (s : String) : Option Int :=
  match s.data with
  | '-' :: cs => (digitsVal cs).map (fun n => -(n : Int))
  | '+' :: cs => (digitsVal cs).map (fun n => (n : Int))
  | cs => (digitsVal cs).map (fun n => (n : Int))

/-- Apply a modelled callable; an error carries the repr of the raised
    (non-SchemaError) Python exception. -/
def applyFun : PyFun → Value → Except String Value
  | .intFn, .atom (.aint n) => .ok (.atom (.aint n))
  | .intFn, .atom (.abool b) => .ok (.atom (.aint (boolInt b)))
  | .intFn, .atom (.astr s) =>
    match parseIntPy s with
    | some n => .ok (.atom (.aint n))
    | none => .error ("ValueError(" ++ dquo ++ "invalid literal for int() with base 10: "
        ++ squo ++ s ++ squo ++ dquo ++ ")")
  | .intFn, _ => .error ("TypeError(" ++ dquo ++ "int() argument is not a string or number" ++ dquo ++ ")")

/-- Python truthiness of a value. -/
def truthyV : Value → Bool
  | .atom (.aint n) => n != 0
  | .atom (.abool b) => b
  | .atom (.astr s) => s != ""
  | .atom .anone => false
  | .vlist xs => !xs.isEmpty
  | .vdict ps => !ps.isEmpty

/-- Truthiness of the allow_wrong_keys slot; None (here `none`) is falsy. -/
def truthyOpt : Option Bool → Bool
  | some b => b
  | none => false

/-- Python repr of a scalar. -/
def reprAtom : Atom → String
  | .aint n => toString n
  | .astr s => squo ++ s ++ squo
  | .abool b => if b then "True" else "False"
  | .anone => "None"

mutual

/-- Python repr of a value. -/
def reprV : Value → String
  | .atom a => reprAtom a
  | .vlist xs => "[" ++ reprVList xs ++ "]"
  | .vdict ps => "\x7b" ++ reprVPairs ps ++ "\x7d"

/-- Comma-separated reprs of list elements. -/
def reprVList : List Value → String
  | [] => ""
  | [x] => reprV x
  | x :: xs => reprV x ++ ", " ++ reprVList xs

/-- Comma-separated reprs of dict items. -/
def reprVPairs : List (Value × Value) → String
  | [] => ""
  | [(k, v)] => reprV k ++ ": " ++ reprV v
  | (k, v) :: ps => reprV k ++ ": " ++ reprV v ++ ", " ++ reprVPairs ps

end

/-- Schema descriptions.  Constructors mirror the runtime shapes dispatched
    on by `_priority`: plain literals, type objects, callables, objects with
    a validate method (a nested Schema, an Optional, And, Or, Use), lists of
    alternatives, and key-to-schema dicts.  `optS s e w d` mirrors an
    Optional instance wrapping schema `s` with error override `e`,
    allow_wrong_keys `w`, and `d = some (key, default)` exactly when it was
    constructed with a default value. -/
inductive Sch where
  | lit : Atom → Sch
  | ty : PyType → Sch
  | pred : PyFun → Sch
  | use : PyFun → Option String → Sch
  | subSchema : Sch → Option String → Option Bool → Sch
  | optS : Sch → Option String → Option Bool → Option (Atom × Value) → Sch
  | andS : List Sch → Option String → Option Bool → Sch
  | orS : List Sch → Option String → Option Bool → Sch
  | iterS : List Sch → Sch
  | dictS : List (Sch × Sch) → Sch

mutual

/-- Python repr of a schema description object. -/
def reprSch : Sch → String
  | .lit a => reprAtom a
  | .ty t => "<class " ++ squo ++ tyName t ++ squo ++ ">"
  | .pred f => funRepr f
  | .use f _ => "Use(" ++ funRepr f ++ ")"
  | .subSchema s _ _ => "Schema(" ++ reprSch s ++ ")"
  | .optS s _ _ _ => "Optional(" ++ reprSch s ++ ")"
  | .andS args _ _ => "And(" ++ reprSchList args ++ ")"
  | .orS args _ _ => "Or(" ++ reprSchList args ++ ")"
  | .iterS alts => "[" ++ reprSchList alts ++ "]"
  | .dictS entries => "\x7b" ++ reprSchPairs entries ++ "\x7d"

/-- Comma-separated reprs of schema descriptions. -/
def reprSchList : List Sch → String
  | [] => ""
  | [s] => reprSch s
  | s :: ss => reprSch s ++ ", " ++ reprSchList ss

/-- Comma-separated reprs of dict-schema items. -/
def reprSchPairs : List (Sch × Sch) → String
  | [] => ""
  | [(k, v)] => reprSch k ++ ": " ++ reprSch v
  | (k, v) :: ps => reprSch k ++ ": " ++ reprSch v ++ ", " ++ reprSchPairs ps

end

/-- Priority constant COMPARABLE (schema.py line 83). -/
def COMPARABLE : Nat := 0

/-- Priority constant CALLABLE. -/
def CALLABLE : Nat := 1

/-- Priority constant VALIDATOR. -/
def VALIDATOR : Nat := 2

/-- Priority constant TYPE. -/
def TYPE : Nat := 3

/-- Priority constant DICT. -/
def DICT : Nat := 4

/-- Priority constant ITERABLE. -/
def ITERABLE : Nat := 5

/-- Priority classification of a schema description (schema.py _priority):
    containers first, then dicts, type objects, objects with a validate
    method, callables, and finally plain comparable literals. -/
def _priority : Sch → Nat
  | .iterS _ => ITERABLE
  | .dictS _ => DICT
  | .ty _ => TYPE
  | .subSchema _ _ _ => VALIDATOR
  | .optS _ _ _ _ => VALIDATOR
  | .andS _ _ _ => VALIDATOR
  | .orS _ _ _ => VALIDATOR
  | .use _ _ => VALIDATOR
  | .pred _ => CALLABLE
  | .lit _ => COMPARABLE

/-- Schema._dict_key_priority: an Optional key sorts just after a plain key
    of the same underlying priority (the Python priority + 0.5 offset,
    scaled here by 2 to stay in Nat). -/
def dictKeyPriority : Sch → Nat
  | .optS inner _ _ _ => 2 * _priority inner + 1
  | k => 2 * _priority k

/-- Whether a dict key is an Optional marker (type(k) is Optional). -/
def isOptionalKey : Sch → Bool
  | .optS _ _ _ _ => true
  | _ => false

/-- The (key, default) pair of an Optional constructed with a default
    (hasattr(k, 'default')). -/
def optDefault : Sch → Option (Atom × Value)
  | .optS _ _ _ d => d
  | _ => none

/-- The literal atom wrapped by a COMPARABLE schema description. -/
def schLitAtom : Sch → Option Atom
  | .lit a => some a
  | _ => none

/-- SchemaError: the two parallel diagnostic chains (auto and custom
    messages, either possibly absent) plus the optional structured key
    details.  `missing_keys` holds schema keys; the other two hold data
    keys. -/
structure SchemaError where
  autos : List (Option String)
  errors : List (Option String)
  missing_keys : Option (List Sch)
  invalid_keys : Option (List Value)
  wrong_keys : Option (List Value)

/-- Helper of the first-occurrence deduplication, carrying the seen set. -/
def uniqStrAux : List String → List String → List String
  | _, [] => []
  | seen, s :: rest =>
    if seen.contains s then uniqStrAux seen rest
    else s :: uniqStrAux (s :: seen) rest

/-- Order-preserving first-occurrence deduplication (the uniq helper inside
    SchemaError.code). -/
def uniqStr (l : List String) : List String := uniqStrAux [] l

/-- SchemaError.code: render the deduplicated non-absent custom messages
    when any exist, otherwise the deduplicated non-absent auto messages,
    newline-joined. -/
def SchemaError.code (x : SchemaError) : String :=
  let a := uniqStr (x.autos.filterMap id)
  let e := uniqStr (x.errors.filterMap id)
  if e.isEmpty then String.intercalate "\n" a else String.intercalate "\n" e

/-- Membership of a data key in a key list, by Python equality. -/
def keyMem (k : Value) (ks : List Value) : Bool := ks.any (fun k2 => pyVEq k2 k)

/-- Helper of the data-key deduplication, carrying the seen set. -/
def uniqKeysAux : List Value → List Value → List Value
  | _, [] => []
  | seen, k :: rest =>
    if keyMem k seen then uniqKeysAux seen rest
    else k :: uniqKeysAux (k :: seen) rest

/-- First-occurrence deduplication of data keys (set construction). -/
def uniqKeys (l : List Value) : List Value := uniqKeysAux [] l

/-- Lexicographic code-point order on character lists. -/
def lexLe : List Char → List Char → Bool
  | [], _ => true
  | _ :: _, [] => false
  | a :: as, b :: bs =>
    if a.val < b.val then true
    else if b.val < a.val then false
    else lexLe as bs

/-- Code-point lexicographic string order (Python string comparison). -/
def strLeB (a b : String) : Bool := lexLe a.data b.data

/-- Insert an element after every element that compares le to it. -/
def insLe {α : Type} (le : α → α → Bool) (a : α) : List α → List α
  | [] => [a]
  | b :: bs => if le b a then b :: insLe le a bs else a :: b :: bs

/-- Stable insertion sort (Python sorted is stable). -/
def stableSortBy {α : Type} (le : α → α → Bool) (l : List α) : List α :=
  l.foldl (fun acc a => insLe le a acc) []

/-- Python dict assignment d[k] = v: replace in place, keeping the original
    key object and position, or append a fresh pair. -/
def dictSet : List (Value × Value) → Value → Value → List (Value × Value)
  | [], k, v => [(k, v)]
  | (k2, v2) :: rest, k, v =>
    if pyVEq k2 k then (k2, v) :: rest else (k2, v2) :: dictSet rest k v

/-- The type of the recursive validation callback threaded through the
    per-flavor bodies: schema description, error override, allow_wrong_keys,
    data. -/
abbrev Validator := Sch → Option String → Option Bool → Value → Except SchemaError Value

/-- VALIDATOR-flavor wrapping of a delegated failure:
    SchemaError([None] + x.autos, [e] + x.errors); the structured key
    details of the inner error are not propagated. -/
def wrapV (e : Option String) : Except SchemaError Value → Except SchemaError Value
  | .ok r => .ok r
  | .error x => .error ⟨none :: x.autos, e :: x.errors, none, none, none⟩

/-- Use.validate: apply the callable, synthesizing a failure from any raised
    exception. -/
def useValidate (f : PyFun) (ue : Option String) (data : Value) : Except SchemaError Value :=
  match applyFun f data with
  | .ok r => .ok r
  | .error exc =>
    .error ⟨[some (funName f ++ "(" ++ reprV data ++ ") raised " ++ exc)], [ue], none, none, none⟩

/-- And.validate: pipe data through each sub-schema in listed order, each
    sub-schema wrapped with the combinator's own error override and
    allow_wrong_keys value. -/
def andPipe (v : Validator) (e2 : Option String) (w2 : Option Bool) :
    List Sch → Value → Except SchemaError Value
  | [], d => .ok d
  | s :: rest, d =>
    match v s e2 w2 d with
    | .ok d2 => andPipe v e2 w2 rest d2
    | .error x => .error x

/-- The synthetic message of a failed disjunction:
    %r did not validate %r with the Or object and the data. -/
def orDidNotValidateMsg (args : List Sch) (data : Value) : String :=
  "Or(" ++ reprSchList args ++ ") did not validate " ++ reprV data

/-- Or.validate loop: return the first success; otherwise remember the
    failure in the accumulator and, after the last alternative, raise the
    synthetic message prepended to the last failure's chains. -/
def orTry (v : Validator) (e2 : Option String) (w2 : Option Bool) (msg : String) (data : Value) :
    List Sch → SchemaError → Except SchemaError Value
  | [], x => .error ⟨some msg :: x.autos, e2 :: x.errors, none, none, none⟩
  | s :: rest, _x =>
    match v s e2 w2 data with
    | .ok r => .ok r
    | .error x2 => orTry v e2 w2 msg data rest x2

/-- Or.validate, starting from the empty SchemaError([], []). -/
def orBody (v : Validator) (e2 : Option String) (w2 : Option Bool) (args : List Sch)
    (data : Value) : Except SchemaError Value :=
  orTry v e2 w2 (orDidNotValidateMsg args data) data args ⟨[], [], none, none, none⟩

/-- Outcome of the inner candidate loop of the mapping matcher for one data
    pair: a match (original schema-entry index, validated key and value), an
    immediate failure of the matched candidate's value schema, or no
    candidate key matched. -/
inductive PairOutcome where
  | matched : Nat → Value → Value → PairOutcome
  | failedValue : SchemaError → PairOutcome
  | noMatch : PairOutcome

/-- The inner candidate loop: try each sorted schema key against the data
    key; a key-validation failure moves on to the next candidate, a key
    match validates the value and stops either way. -/
def tryCandidates (v : Validator) (e : Option String) (w : Option Bool) (key value : Value) :
    List (Nat × Sch × Sch) → PairOutcome
  | [] => .noMatch
  | (i, sk, sv) :: rest =>
    match v sk e w key with
    | .error _ => tryCandidates v e w key value rest
    | .ok nk =>
      match v sv e w value with
      | .error x => .failedValue x
      | .ok nv => .matched i nk nv

/-- Message of the stale-error raise: Invalid value for key %r. -/
def invalidValueMsg (key : Value) : String := "Invalid value for key " ++ reprV key

/-- The outer loop of the mapping matcher over the data pairs.  `new` is the
    output dict, `cov` the covered original schema-entry indices, and `x`
    the last invalid-value error variable of the source, which is only ever
    written in the branch that raises immediately. -/
def processPairs (v : Validator) (e : Option String) (w : Option Bool)
    (skeys : List (Nat × Sch × Sch)) :
    List (Value × Value) → List (Value × Value) → List Nat → Option SchemaError →
    Except SchemaError (List (Value × Value) × List Nat)
  | [], new, cov, _ => .ok (new, cov)
  | (key, value) :: rest, new, cov, x =>
    match tryCandidates v e w key value skeys with
    | .matched i nk nv => processPairs v e w skeys rest (dictSet new nk nv) (cov ++ [i]) x
    | .failedValue err => .error { err with invalid_keys := some [key] }
    | .noMatch =>
      if skeys.isEmpty then processPairs v e w skeys rest new cov x
      else
        match x with
        | some xe =>
          .error ⟨some (invalidValueMsg key) :: xe.autos, e :: xe.errors, none, some [key], none⟩
        | none => processPairs v e w skeys rest new cov x

/-- The same outer loop with the stale-error branch removed (the per-key
    reset behaviour the spec calls the more defensible variant); used to
    compare against `processPairs`. -/
def processPairsNoStale (v : Validator) (e : Option String) (w : Option Bool)
    (skeys : List (Nat × Sch × Sch)) :
    List (Value × Value) → List (Value × Value) → List Nat →
    Except SchemaError (List (Value × Value) × List Nat)
  | [], new, cov => .ok (new, cov)
  | (key, value) :: rest, new, cov =>
    match tryCandidates v e w key value skeys with
    | .matched i nk nv => processPairsNoStale v e w skeys rest (dictSet new nk nv) (cov ++ [i])
    | .failedValue err => .error { err with invalid_keys := some [key] }
    | .noMatch => processPairsNoStale v e w skeys rest new cov

/-- Schema keys sorted by dict-key priority, stably, paired with their
    original entry index (sorted(s, key=self._dict_key_priority)). -/
def sortedEntries (entries : List (Sch × Sch)) : List (Nat × Sch × Sch) :=
  stableSortBy (fun a b => Nat.ble (dictKeyPriority a.2.1) (dictKeyPriority b.2.1)) entries.enum

/-- Required (non-Optional) schema keys not covered, in schema order
    (Python computes required - coverage as a set; set iteration order is
    modelled as schema insertion order). -/
def requiredMissing (entries : List (Sch × Sch)) (cov : List Nat) : List Sch :=
  (entries.enum.filter (fun p => !isOptionalKey p.2.1 && !cov.contains p.1)).map (fun p => p.2.1)

/-- Insert the defaults of uncovered default-carrying Optional keys:
    new[default.key] = default.default. -/
def applyDefaults (entries : List (Sch × Sch)) (cov : List Nat)
    (new : List (Value × Value)) : List (Value × Value) :=
  (entries.enum.filter (fun p => (optDefault p.2.1).isSome && !cov.contains p.1)).foldl
    (fun acc p =>
      match optDefault p.2.1 with
      | some (a, d) => dictSet acc (.atom a) d
      | none => acc) new

/-- The DICT-flavor body after the dict type check: match the pairs, check
    required-key coverage, then the wrong-keys policy, then insert the
    defaults. -/
def dictBody (v : Validator) (e : Option String) (w : Option Bool)
    (entries : List (Sch × Sch)) (data : Value) (pairs : List (Value × Value)) :
    Except SchemaError Value :=
  match processPairs v e w (sortedEntries entries) pairs [] [] none with
  | .error x => .error x
  | .ok (new, cov) =>
    let missing := requiredMissing entries cov
    if !missing.isEmpty then
      .error ⟨[some ("Missing keys: " ++ String.intercalate ", " (missing.map reprSch))],
        [e], some missing, none, none⟩
    else if !truthyOpt w && new.length != pairs.length then
      let wks := stableSortBy (fun a b => strLeB (reprV a) (reprV b))
        ((uniqKeys (pairs.map Prod.fst)).filter (fun k => !keyMem k (new.map Prod.fst)))
      .error ⟨[some ("Wrong keys " ++ String.intercalate ", " (wks.map reprV)
          ++ " in " ++ reprV data)], [e], none, none, some wks⟩
    else .ok (.vdict (applyDefaults entries cov new))

/-- Validate every element of a list against the disjunction of the
    alternatives (the generator inside the ITERABLE branch; the Or there is
    built with error=e and no allow_wrong_keys argument). -/
def mapOrElems (v : Validator) (e : Option String) (alts : List Sch) :
    List Value → Except SchemaError (List Value)
  | [] => .ok []
  | d :: ds =>
    match orBody v e none alts d with
    | .error x => .error x
    | .ok r =>
      match mapOrElems v e alts ds with
      | .error x => .error x
      | .ok rs => .ok (r :: rs)

/-- Message of a TYPE-flavor failure: %r should be instance of %r. -/
def instanceMsg (d : Value) (t : PyType) : String :=
  reprV d ++ " should be instance of " ++ squo ++ tyName t ++ squo

/-- One dispatch step of Schema.validate; `v` is the recursive callback
    standing for the nested Schema(...).validate(...) calls. -/
def validateStep (v : Validator) (s : Sch) (e : Option String) (w : Option Bool)
    (data : Value) : Except SchemaError Value :=
  match s with
  | .iterS alts =>
    match v (.ty .list) e w data with
    | .error x => .error x
    | .ok (.vlist xs) =>
      match mapOrElems v e alts xs with
      | .error x => .error x
      | .ok rs => .ok (.vlist rs)
    | .ok other => .ok other
  | .dictS entries =>
    match v (.ty .dict) e w data with
    | .error x => .error x
    | .ok (.vdict pairs) => dictBody v e w entries data pairs
    | .ok other => .ok other
  | .ty t =>
    if isinstance data t then .ok data
    else .error ⟨[some (instanceMsg data t)], [e], none, none, none⟩
  | .subSchema s2 e2 w2 => wrapV e (v s2 e2 w2 data)
  | .optS s2 e2 w2 _ => wrapV e (v s2 e2 w2 data)
  | .andS args e2 w2 => wrapV e (andPipe v e2 w2 args data)
  | .orS args e2 w2 => wrapV e (orBody v e2 w2 args data)
  | .use f ue => wrapV e (useValidate f ue data)
  | .pred f =>
    match applyFun f data with
    | .ok r =>
      if truthyV r then .ok data
      else .error ⟨[some (funName f ++ "(" ++ reprV data ++ ") should evaluate to True")],
        [e], none, none, none⟩
    | .error exc =>
      .error ⟨[some (funName f ++ "(" ++ reprV data ++ ") raised " ++ exc)],
        [e], none, none, none⟩
  | .lit a =>
    if atomEqV a data then .ok data
    else .error ⟨[some (reprAtom a ++ " does not match " ++ reprV data)], [e], none, none, none⟩

/-- Modelling artifact: the error produced when the fuel bound is reached;
    the Python code has no analogue and theorems always supply enough fuel. -/
def fuelExhausted : SchemaError := ⟨[some "model recursion bound reached"], [none], none, none, none⟩

/-- Schema(s, error=e, allow_wrong_keys=w).validate(data), with a recursion
    bound. -/
def validate : Nat → Sch → Option String → Option Bool → Value → Except SchemaError Value
  | 0, _, _, _, _ => .error fuelExhausted
  | fuel + 1, s, e, w, data => validateStep (validate fuel) s e w data

/-- Optional(...) construction: Optional(s, error=e, allow_wrong_keys=w)
    plus an optional default.  With a default, the wrapped description must
    classify as COMPARABLE, otherwise a TypeError is raised at construction
    time; on success the literal key and the default are recorded. -/
def mkOptional (s : Sch) (e : Option String) (w : Option Bool) (dflt : Option Value) :
    Except String Sch :=
  match dflt with
  | none => .ok (.optS s e w none)
  | some d =>
    if _priority s = COMPARABLE then
      .ok (.optS s e w ((schLitAtom s).map (fun a => (a, d))))
    else
      .error ("Optional keys with defaults must have simple, predictable values, like literal strings or ints. "
        ++ dquo ++ reprSch s ++ dquo ++ " is too complex.")

/-- The missing_keys detail of a failed validation (empty on success). -/
def missingOf : Except SchemaError Value → List Sch
  | .error x => x.missing_keys.getD []
  | .ok _ => []

/-- The wrong_keys detail of a failed validation (empty on success). -/
def wrongOf : Except SchemaError Value → List Value
  | .error x => x.wrong_keys.getD []
  | .ok _ => []

/-- The invalid_keys detail of a failed validation (empty on success). -/
def invalidOf : Except SchemaError Value → List Value
  | .error x => x.invalid_keys.getD []
  | .ok _ => []

/-- Whether a validation succeeded. -/
def exceptIsOk : Except SchemaError Value → Bool
  | .ok _ => true
  | .error _ => false

/-- The uniq deduplication preserves emptiness. -/
theorem uniqStr_isEmpty (l : List String) : (uniqStr l).isEmpty = l.isEmpty := by
  cases l with
  | nil => rfl
  | cons a l => rfl

/-- SchemaError.code unfolded: custom messages win when any survive the
    None filter, otherwise the auto messages are rendered. -/
theorem code_spec (x : SchemaError) :
    x.code = if (x.errors.filterMap id).isEmpty
      then String.intercalate "\n" (uniqStr (x.autos.filterMap id))
      else String.intercalate "\n" (uniqStr (x.errors.filterMap id)) := by
  show (if (uniqStr (x.errors.filterMap id)).isEmpty then _ else _) = _
  rw [uniqStr_isEmpty]

/-- Candidates whose key validation fails are skipped without effect. -/
theorem tryCandidates_append_fail (v : Validator) (e : Option String) (w : Option Bool)
    (key value : Value) (tail : List (Nat × Sch × Sch)) :
    ∀ pre : List (Nat × Sch × Sch),
      (∀ t ∈ pre, ∃ err, v t.2.1 e w key = Except.error err) →
      tryCandidates v e w key value (pre ++ tail) = tryCandidates v e w key value tail := by
  intro pre
  induction pre with
  | nil => intro _; rfl
  | cons t pre ih =>
    intro h
    obtain ⟨err, herr⟩ := h t (List.mem_cons_self t pre)
    obtain ⟨i, sk, sv⟩ := t
    simp only [List.cons_append, tryCandidates]
    rw [herr]
    exact ih (fun u hu => h u (List.mem_cons_of_mem _ hu))

/-- The Or loop returns the first success, whatever error is accumulated. -/
theorem orTry_first_ok (v : Validator) (e2 : Option String) (w2 : Option Bool)
    (msg : String) (data : Value) (a : Sch) (rest : List Sch) (val : Value)
    (ha : v a e2 w2 data = Except.ok val) :
    ∀ (pre : List Sch) (x0 : SchemaError),
      (∀ s ∈ pre, ∃ err, v s e2 w2 data = Except.error err) →
      orTry v e2 w2 msg data (pre ++ a :: rest) x0 = Except.ok val := by
  intro pre
  induction pre with
  | nil =>
    intro x0 _
    simp only [List.nil_append, orTry]
    rw [ha]
  | cons s pre ih =>
    intro x0 h
    obtain ⟨err, herr⟩ := h s (List.mem_cons_self s pre)
    simp only [List.cons_append, orTry]
    rw [herr]
    exact ih err (fun u hu => h u (List.mem_cons_of_mem _ hu))

/-- When every alternative fails, the Or loop raises the synthetic message
    prepended to the chains of the last alternative's failure. -/
theorem orTry_all_fail (v : Validator) (e2 : Option String) (w2 : Option Bool)
    (msg : String) (data : Value) (lastS : Sch) (xl : SchemaError)
    (hlast : v lastS e2 w2 data = Except.error xl) :
    ∀ (init : List Sch) (x0 : SchemaError),
      (∀ s ∈ init, ∃ err, v s e2 w2 data = Except.error err) →
      orTry v e2 w2 msg data (init ++ [lastS]) x0
        = Except.error ⟨some msg :: xl.autos, e2 :: xl.errors, none, none, none⟩ := by
  intro init
  induction init with
  | nil =>
    intro x0 _
    simp only [List.nil_append, orTry]
    rw [hlast]
  | cons s init ih =>
    intro x0 h
    obtain ⟨err, herr⟩ := h s (List.mem_cons_self s init)
    simp only [List.cons_append, orTry]
    rw [herr]
    exact ih err (fun u hu => h u (List.mem_cons_of_mem _ hu))

/-- Started from an unset last-error variable, the pair loop never reaches
    the stale-error branch: it agrees with the loop that has no such
    branch. -/
theorem processPairs_none_eq (v : Validator) (e : Option String) (w : Option Bool)
    (skeys : List (Nat × Sch × Sch)) :
    ∀ (pairs new : List (Value × Value)) (cov : List Nat),
      processPairs v e w skeys pairs new cov none
        = processPairsNoStale v e w skeys pairs new cov := by
  intro pairs
  induction pairs with
  | nil => intro new cov; rfl
  | cons p rest ih =>
    intro new cov
    obtain ⟨key, value⟩ := p
    cases h : tryCandidates v e w key value skeys with
    | matched i nk nv =>
      simp only [processPairs, processPairsNoStale, h]
      exact ih _ _
    | failedValue err => simp only [processPairs, processPairsNoStale, h]
    | noMatch =>
      simp only [processPairs, processPairsNoStale, h]
      by_cases hE : skeys.isEmpty = true
      · rw [if_pos hE]; exact ih _ _
      · rw [if_neg hE]; exact ih _ _

/-- The schema of claim C1: two entries, a required literal key "a" mapped
    to int and Optional("b", default=0) mapped to int. -/
def c1schema : Sch :=
  .dictS [(.lit (.astr "a"), .ty .int),
          (.optS (.lit (.astr "b")) none (some true) (some (.astr "b", vint 0)), .ty .int)]

/-- C1: mapping coverage with defaults.  On input with only key "a" the
    default 0 is inserted under "b"; on input covering both keys the input
    value 2 for "b" is kept; on empty input validation fails with a
    missing-keys detail naming the required key "a" (the default is only
    applied after the required-key check, so it does not rescue the empty
    input into an error-free result, and it is only applied to the Optional
    key when no input pair covered it). -/
theorem c1_mapping_coverage_defaults :
    validate 9 c1schema none (some true) (.vdict [(vstr "a", vint 1)])
      = .ok (.vdict [(vstr "a", vint 1), (vstr "b", vint 0)])
    ∧ validate 9 c1schema none (some true) (.vdict [(vstr "a", vint 1), (vstr "b", vint 2)])
      = .ok (.vdict [(vstr "a", vint 1), (vstr "b", vint 2)])
    ∧ missingOf (validate 9 c1schema none (some true) (.vdict []))
      = [.lit (.astr "a")] :=
  ⟨rfl, rfl, rfl⟩

/-- C2: when an input key matches a candidate schema key (after the
    candidates the sort placed earlier all failed to match the key) and its
    value fails against that candidate's value schema, the matcher stops at
    that candidate — the result does not depend on the remaining candidates
    `rest` — and the mapping loop immediately raises that same error with
    invalid_keys mutated to [key]. -/
theorem c2_invalid_value_short_circuit (fuel : Nat) (e : Option String) (w : Option Bool)
    (pre rest : List (Nat × Sch × Sch)) (i : Nat) (sk sv : Sch)
    (key value nk : Value) (x : SchemaError)
    (pairs new : List (Value × Value)) (cov : List Nat) (x0 : Option SchemaError)
    (hpre : ∀ t ∈ pre, ∃ err, validate fuel t.2.1 e w key = Except.error err)
    (hkey : validate fuel sk e w key = Except.ok nk)
    (hval : validate fuel sv e w value = Except.error x) :
    tryCandidates (validate fuel) e w key value (pre ++ (i, sk, sv) :: rest)
      = PairOutcome.failedValue x
    ∧ processPairs (validate fuel) e w (pre ++ (i, sk, sv) :: rest)
        ((key, value) :: pairs) new cov x0
      = Except.error { x with invalid_keys := some [key] } := by
  have h1 : tryCandidates (validate fuel) e w key value (pre ++ (i, sk, sv) :: rest)
      = PairOutcome.failedValue x := by
    rw [tryCandidates_append_fail (validate fuel) e w key value _ pre hpre]
    simp only [tryCandidates]
    rw [hkey, hval]
  refine ⟨h1, ?_⟩
  simp only [processPairs, h1]

/-- Witness for C2: schema key "a" with value schema int, input pair
    ("a", "no"); the value error is raised at once with invalid_keys
    ["a"]. -/
theorem c2_invalid_value_short_circuit_witness :
    tryCandidates (validate 5) none (some true) (vstr "a") (vstr "no")
        [(0, Sch.lit (Atom.astr "a"), Sch.ty PyType.int)]
      = PairOutcome.failedValue
          ⟨[some (instanceMsg (vstr "no") PyType.int)], [none], none, none, none⟩
    ∧ processPairs (validate 5) none (some true)
        [(0, Sch.lit (Atom.astr "a"), Sch.ty PyType.int)]
        [(vstr "a", vstr "no")] [] [] none
      = Except.error
          ⟨[some (instanceMsg (vstr "no") PyType.int)], [none], none, some [vstr "a"], none⟩ :=
  c2_invalid_value_short_circuit 5 none (some true) [] [] 0
    (Sch.lit (Atom.astr "a")) (Sch.ty PyType.int) (vstr "a") (vstr "no") (vstr "a")
    ⟨[some (instanceMsg (vstr "no") PyType.int)], [none], none, none, none⟩
    [] [] [] none
    (fun t ht => absurd ht (List.not_mem_nil t)) rfl rfl

/-- The schema of claims C3, C4 and C8: a single required literal key "a"
    mapped to int. -/
def c3schema : Sch := .dictS [(.lit (.astr "a"), .ty .int)]

/-- C3: the wrong-keys policy at the top level.  With allow_wrong_keys
    False, validating an input with the extra key "z" fails with a
    wrong-keys detail containing "z"; with the default policy the same
    input succeeds and the extra key is silently dropped. -/
theorem c3_wrong_keys_policy :
    wrongOf (validate 9 c3schema none (some false)
        (.vdict [(vstr "a", vint 1), (vstr "z", vint 9)]))
      = [vstr "z"]
    ∧ validate 9 c3schema none (some true)
        (.vdict [(vstr "a", vint 1), (vstr "z", vint 9)])
      = .ok (.vdict [(vstr "a", vint 1)]) :=
  ⟨rfl, rfl⟩

/-- The data of claim C4: a mapping with the extra key "z". -/
def c4data : Value := .vdict [(vstr "a", vint 1), (vstr "z", vint 9)]

/-- C4 counterexample: And({"a": int}) constructed without an explicit
    allow_wrong_keys option does NOT validate its mapping sub-schema under
    the default policy: the extra key "z" is not dropped, validation fails
    with a wrong-keys detail containing "z" (the combinator hands its unset
    None policy to the sub-schema, and None is falsy). -/
theorem c4_combinator_wrong_keys_counterexample :
    exceptIsOk (andPipe (validate 9) none none [c3schema] c4data) = false
    ∧ wrongOf (andPipe (validate 9) none none [c3schema] c4data) = [vstr "z"] :=
  ⟨rfl, rfl⟩

/-- C4 amended: a combinator built without an explicit allow_wrong_keys
    option passes its unset (None, falsy) policy to every wrapped
    sub-schema, so a nested mapping sub-schema fails on extra input keys
    instead of dropping them: directly under And the WrongKeys failure
    surfaces as such; under Or (and hence inside an iterable schema, whose
    elements are validated by such an Or) every alternative fails and the
    combined disjunction failure is raised. -/
theorem c4_combinator_wrong_keys_amended :
    wrongOf (andPipe (validate 9) none none [c3schema] c4data) = [vstr "z"]
    ∧ exceptIsOk (orBody (validate 9) none none [c3schema] c4data) = false
    ∧ exceptIsOk (validate 9 (.iterS [c3schema]) none (some true) (.vlist [c4data])) = false :=
  ⟨rfl, rfl, rfl⟩

/-- C5: disjunction semantics.  First conjunct: the first success is
    returned immediately, whatever alternatives follow, each attempt run
    against the original data.  Second conjunct: when every alternative
    fails, the raised failure's auto chain is the synthetic
    no-alternative-matched message followed by the last alternative's auto
    chain, and its custom chain is the combinator's own error override
    followed by the last alternative's custom chain (earlier alternatives'
    diagnostics are discarded: the result only depends on the last
    failure). -/
theorem c5_or_first_success_last_error (fuel : Nat) (e2 : Option String) (w2 : Option Bool)
    (data : Value) :
    (∀ (pre : List Sch) (a : Sch) (rest : List Sch) (val : Value),
      (∀ s ∈ pre, ∃ err, validate fuel s e2 w2 data = Except.error err) →
      validate fuel a e2 w2 data = Except.ok val →
      orBody (validate fuel) e2 w2 (pre ++ a :: rest) data = Except.ok val)
    ∧ (∀ (init : List Sch) (lastS : Sch) (xl : SchemaError),
      (∀ s ∈ init, ∃ err, validate fuel s e2 w2 data = Except.error err) →
      validate fuel lastS e2 w2 data = Except.error xl →
      orBody (validate fuel) e2 w2 (init ++ [lastS]) data
        = Except.error ⟨some (orDidNotValidateMsg (init ++ [lastS]) data) :: xl.autos,
            e2 :: xl.errors, none, none, none⟩) := by
  constructor
  · intro pre a rest val hpre ha
    exact orTry_first_ok (validate fuel) e2 w2 _ data a rest val ha pre _ hpre
  · intro init lastS xl hinit hlast
    exact orTry_all_fail (validate fuel) e2 w2 _ data lastS xl hlast init _ hinit

/-- Witness for C5: Or("q", int, str) on 5 returns 5 through the second
    alternative; Or("q", str) on 5 fails with the synthetic message
    prepended to the last alternative's chains. -/
theorem c5_or_first_success_last_error_witness :
    orBody (validate 5) none (some true)
        [Sch.lit (Atom.astr "q"), Sch.ty PyType.int, Sch.ty PyType.str] (vint 5)
      = Except.ok (vint 5)
    ∧ orBody (validate 5) none (some true)
        [Sch.lit (Atom.astr "q"), Sch.ty PyType.str] (vint 5)
      = Except.error
          ⟨[some (orDidNotValidateMsg [Sch.lit (Atom.astr "q"), Sch.ty PyType.str] (vint 5)),
            some (instanceMsg (vint 5) PyType.str)], [none, none], none, none, none⟩ := by
  have h := c5_or_first_success_last_error 5 none (some true) (vint 5)
  constructor
  · exact h.1 [Sch.lit (Atom.astr "q")] (Sch.ty PyType.int) [Sch.ty PyType.str] (vint 5)
      (fun s hs => by rw [List.mem_singleton] at hs; subst hs; exact ⟨_, rfl⟩) rfl
  · exact h.2 [Sch.lit (Atom.astr "q")] (Sch.ty PyType.str)
      ⟨[some (instanceMsg (vint 5) PyType.str)], [none], none, none, none⟩
      (fun s hs => by rw [List.mem_singleton] at hs; subst hs; exact ⟨_, rfl⟩) rfl

/-- C6: conjunction pipelining.  First conjunct: And pipes the data through
    each sub-schema in listed order, feeding each step the previous step's
    return value.  Second conjunct: the Schema dispatcher delegates an And
    description to that pipeline, wrapped as a validator.  Then concretely:
    And(str, Use(int)) maps "42" to 42, and fails on "x". -/
theorem c6_and_pipeline :
    (∀ (v : Validator) (e2 : Option String) (w2 : Option Bool) (a : Sch) (rest : List Sch)
        (data : Value),
      andPipe v e2 w2 (a :: rest) data
        = match v a e2 w2 data with
          | .ok d2 => andPipe v e2 w2 rest d2
          | .error x => Except.error x)
    ∧ (∀ (fuel : Nat) (args : List Sch) (e2 e : Option String) (w2 w : Option Bool)
        (data : Value),
      validate (fuel + 1) (.andS args e2 w2) e w data
        = wrapV e (andPipe (validate fuel) e2 w2 args data))
    ∧ andPipe (validate 9) none none [Sch.ty PyType.str, Sch.use PyFun.intFn none] (vstr "42")
      = Except.ok (vint 42)
    ∧ exceptIsOk (andPipe (validate 9) none none
        [Sch.ty PyType.str, Sch.use PyFun.intFn none] (vstr "x")) = false :=
  ⟨fun _ _ _ _ _ _ => rfl, fun _ _ _ _ _ _ _ => rfl, rfl, rfl⟩

/-- C7: error rendering.  When any non-absent custom message exists, the
    rendered code is the newline-join of the deduplicated (first occurrence
    kept) non-absent custom messages; otherwise it is the newline-join of
    the deduplicated non-absent auto messages; and a chain with one custom
    override "bad!" among several auto messages renders exactly "bad!". -/
theorem c7_error_rendering :
    (∀ x : SchemaError, x.errors.filterMap id ≠ [] →
      x.code = String.intercalate "\n" (uniqStr (x.errors.filterMap id)))
    ∧ (∀ x : SchemaError, x.errors.filterMap id = [] →
      x.code = String.intercalate "\n" (uniqStr (x.autos.filterMap id)))
    ∧ SchemaError.code
        ⟨[some "auto1", some "auto2", some "auto1"], [none, some "bad!", none],
          none, none, none⟩ = "bad!" := by
  refine ⟨?_, ?_, rfl⟩
  · intro x h
    rw [code_spec]
    cases hl : x.errors.filterMap id with
    | nil => exact absurd hl h
    | cons a l => rfl
  · intro x h
    rw [code_spec, h]
    rfl

/-- Witness for C7: both implications applied at concrete chains — a chain
    with the single custom message "bad!" renders "bad!", and a chain with
    no custom messages renders its deduplicated auto messages. -/
theorem c7_error_rendering_witness :
    SchemaError.code ⟨[some "m"], [some "bad!"], none, none, none⟩ = "bad!"
    ∧ SchemaError.code ⟨[some "m1", some "m1", some "m2"], [none], none, none, none⟩
      = "m1" ++ "\n" ++ "m2" := by
  constructor
  · have h := c7_error_rendering.1 ⟨[some "m"], [some "bad!"], none, none, none⟩ (by simp)
    simpa using h
  · have h := c7_error_rendering.2.1 ⟨[some "m1", some "m1", some "m2"], [none], none, none, none⟩
      (by simp)
    simpa using h

/-- C8 counterexample: at the very scenario the claim describes (the key
    "a" whose value fails against the differently-prioritised candidate,
    followed by the unmatched key "zz"), the matcher raises the value error
    immediately under the key "a" — it never reaches the later unmatched
    key, so no stale error is raised under a wrong key. -/
theorem c8_stale_error_counterexample :
    invalidOf (validate 9 c3schema none (some true)
        (.vdict [(vstr "a", vstr "bad"), (vstr "zz", vint 7)]))
      = [vstr "a"]
    ∧ exceptIsOk (validate 9 c3schema none (some true)
        (.vdict [(vstr "a", vstr "bad"), (vstr "zz", vint 7)])) = false :=
  ⟨rfl, rfl⟩

/-- C8 amended: the last-invalid-value-error variable is written only in
    the branch that raises immediately, so it is still unset whenever an
    unmatched input key is processed; the stale-error branch is unreachable
    and the pair loop (always entered with the variable unset) is equal to
    the same loop with that branch removed. -/
theorem c8_stale_branch_unreachable (v : Validator) (e : Option String) (w : Option Bool)
    (skeys : List (Nat × Sch × Sch)) (pairs new : List (Value × Value)) (cov : List Nat) :
    processPairs v e w skeys pairs new cov none
      = processPairsNoStale v e w skeys pairs new cov :=
  processPairs_none_eq v e w skeys pairs new cov

/-- C9: constructing an Optional with a default value succeeds exactly when
    the wrapped description classifies as COMPARABLE, and COMPARABLE
    descriptions are exactly the plain literals — every other shape (type,
    callable, validator, mapping, iterable) raises at construction time. -/
theorem c9_optional_default_requires_comparable (s : Sch) (e : Option String)
    (w : Option Bool) (d : Value) :
    ((∃ k, mkOptional s e w (some d) = Except.ok k) ↔ _priority s = COMPARABLE)
    ∧ (_priority s = COMPARABLE ↔ ∃ a, s = Sch.lit a) := by
  constructor
  · constructor
    · rintro ⟨k, hk⟩
      by_contra hp
      simp [mkOptional, hp] at hk
    · intro hp
      refine ⟨Sch.optS s e w ((schLitAtom s).map (fun a => (a, d))), ?_⟩
      simp [mkOptional, hp]
  · cases s <;>
      simp [_priority, COMPARABLE, CALLABLE, VALIDATOR, TYPE, DICT, ITERABLE]

/-- C10: the empty conjunction is the identity: And() with no sub-schemas
    validates any data successfully and returns it unchanged, both as a
    direct And.validate call and when dispatched through Schema.validate. -/
theorem c10_empty_and_identity (v : Validator) (e2 : Option String) (w2 : Option Bool)
    (fuel : Nat) (e : Option String) (w : Option Bool) (data : Value) :
    andPipe v e2 w2 [] data = Except.ok data
    ∧ validate (fuel + 1) (.andS [] e2 w2) e w data = Except.ok data :=
  ⟨rfl, rfl⟩
